import Mathlib

/-!
Shallow embedding of the emergency-coordination engine of this repository
(src/contexts/EmergencyContext.tsx, src/components/SOSButton.tsx and the
confirmation popup component).

Modelling conventions:
* JavaScript numbers holding coordinates, distances and progress values are
  rationals (`Rat`); millisecond clock values are integers (`Int`).
* Firestore document ids are naturals drawn from a per-state counter
  (Firestore assigns fresh unique ids on every `addDoc`).
* A JavaScript field that may be `undefined`/`null` is an `Option`; the
  JavaScript truthiness test `!x` on a numeric field holds for both a missing
  field and the number 0, and on a string field for a missing field and `""`.
* The haversine `calculateDistance` of the source computes with `Math.sin`,
  `Math.cos`, `Math.atan2`; it enters the discovery algorithm only through the
  distance value it returns, so the embedding passes the distance function as
  an explicit parameter `dist` wherever the source calls `calculateDistance`.
* Server-assigned creation timestamps (`serverTimestamp()`) decide no claim
  and are not carried in the document records.
-/

/-- Location reading produced by the geolocation callback
(EmergencyContext.tsx, `interface Location`). -/
structure Location where
  latitude : Rat
  longitude : Rat
  accuracy : Rat
  timestamp : Int
deriving DecidableEq

/-- One document of the `users` collection as read by
`findNearbyUsersWithExpansion` (EmergencyContext.tsx lines 162-193).
`isOnlineFlag` is the stored `isOnline` field compared with `=== true`;
`lastActive`/`lastUpdated` are the stored Firestore timestamps in
milliseconds. -/
structure UserDoc where
  id : String
  displayName : Option String
  email : Option String
  phone : Option String
  lat : Option Rat
  lng : Option Rat
  isOnlineFlag : Bool
  lastActive : Option Int
  lastUpdated : Option Int
deriving DecidableEq

/-- Computed helper candidate (EmergencyContext.tsx, `interface
HelperWithStatus`). -/
structure HelperWithStatus where
  id : String
  name : String
  email : Option String
  phone : Option String
  lat : Rat
  lng : Rat
  distance : Rat
  isOnline : Bool
  lastActive : Option Int
deriving DecidableEq

/-- JavaScript `s || null` on an optional string: `""` and a missing value
both collapse to `null`. -/
def jsStrOrNull : Option String → Option String
  | none => none
  | some s => if s = "" then none else some s

/-- JavaScript `email?.split(Char.ofNat 64)[0] || "Helper"` fallback chain. -/
def emailLocalPart : Option String → String
  | none => "Helper"
  | some e =>
    let l := (e.splitOn "@").headD ""
    if l = "" then "Helper" else l

/-- `userData.displayName || userData.email?.split(...)[0] || "Helper"`
(EmergencyContext.tsx line 183). -/
def helperDisplayName (u : UserDoc) : String :=
  match u.displayName with
  | some d => if d = "" then emailLocalPart u.email else d
  | none => emailLocalPart u.email

/-- Five minutes in milliseconds (the trailing online window). -/
def ONLINE_WINDOW_MS : Int := 5 * 60 * 1000

/-- `userData.lastActive?.toDate?.() || userData.lastUpdated?.toDate?.()`
(EmergencyContext.tsx line 177). -/
def lastSeen (u : UserDoc) : Option Int :=
  u.lastActive.orElse (fun _ => u.lastUpdated)

/-- `userData.isOnline === true || (lastActive && lastActive > fiveMinutesAgo)`
(EmergencyContext.tsx line 179), with `fiveMinutesAgo = now - 5 * 60 * 1000`. -/
def isOnlineAt (now : Int) (u : UserDoc) : Bool :=
  u.isOnlineFlag ||
    (match lastSeen u with
     | some la => decide (now - ONLINE_WINDOW_MS < la)
     | none => false)

/-- The per-user body of the `usersSnapshot.forEach` loop at one radius
(EmergencyContext.tsx lines 169-193): skip the requesting user, skip a user
whose stored `lat` or `lng` is falsy (missing or exactly 0), compute the
distance, and keep the user when the distance is within the radius. -/
def candidateAt (dist : Rat → Rat → Rat → Rat → Rat) (lat lng : Rat)
    (currentUserId : String) (now : Int) (radius : Rat) (u : UserDoc) :
    Option HelperWithStatus :=
  if u.id = currentUserId then none
  else
    match u.lat, u.lng with
    | some ulat, some ulng =>
      if ulat = 0 ∨ ulng = 0 then none
      else
        let d := dist lat lng ulat ulng
        if d ≤ radius then
          some { id := u.id, name := helperDisplayName u,
                 email := jsStrOrNull u.email, phone := jsStrOrNull u.phone,
                 lat := ulat, lng := ulng, distance := d,
                 isOnline := isOnlineAt now u, lastActive := lastSeen u }
        else none
    | _, _ => none

/-- All candidates collected at one radius, in `users` order. -/
def nearbyUsersAt (dist : Rat → Rat → Rat → Rat → Rat) (lat lng : Rat)
    (currentUserId : String) (now : Int) (users : List UserDoc)
    (radius : Rat) : List HelperWithStatus :=
  users.filterMap (candidateAt dist lat lng currentUserId now radius)

/-- `MAX_SEARCH_RADIUS = 50` (EmergencyContext.tsx line 154). -/
def MAX_SEARCH_RADIUS : Rat := 50

/-- `RADIUS_INCREMENT = 5` (EmergencyContext.tsx line 155). -/
def RADIUS_INCREMENT : Rat := 5

/-- The radii visited by `for (let radius = 5; radius <= MAX_SEARCH_RADIUS;
radius += RADIUS_INCREMENT)`: starting at 5, stepping by `RADIUS_INCREMENT`
= 5 while not exceeding `MAX_SEARCH_RADIUS` = 50. -/
def searchRadii : List Rat :=
  [5, 10, 15, 20, 25, 30, 35, 40, 45, 50]

/-- The sort comparator `(a, b) => a.isOnline !== b.isOnline ? (a.isOnline ?
-1 : 1) : a.distance - b.distance` (EmergencyContext.tsx lines 198-201), as
the relation "the comparator does not put `a` strictly after `b`". -/
def helperLE (a b : HelperWithStatus) : Bool :=
  if a.isOnline = b.isOnline then decide (a.distance ≤ b.distance)
  else a.isOnline

/-- The loop body of `findNearbyUsersWithExpansion` over the remaining radii:
stop at the first radius whose candidate list is non-empty, returning it
sorted; fall through to `([], MAX_SEARCH_RADIUS)` when the radii run out
(EmergencyContext.tsx lines 166-206). -/
def expansionGo (dist : Rat → Rat → Rat → Rat → Rat) (lat lng : Rat)
    (currentUserId : String) (now : Int) (users : List UserDoc) :
    List Rat → List HelperWithStatus × Rat
  | [] => ([], MAX_SEARCH_RADIUS)
  | radius :: rest =>
    let nearbyUsers := nearbyUsersAt dist lat lng currentUserId now users radius
    if nearbyUsers.length > 0 then (nearbyUsers.mergeSort helperLE, radius)
    else expansionGo dist lat lng currentUserId now users rest

/-- `findNearbyUsersWithExpansion` (EmergencyContext.tsx lines 157-207),
with the haversine distance function passed explicitly. -/
def findNearbyUsersWithExpansion (dist : Rat → Rat → Rat → Rat → Rat)
    (lat lng : Rat) (currentUserId : String) (now : Int)
    (users : List UserDoc) : List HelperWithStatus × Rat :=
  expansionGo dist lat lng currentUserId now users searchRadii

/-! ## Persistent store and client state (Emergency Session Manager, Chat
Coordinator) -/

/-- `status` field of an emergency document. -/
inductive EmergencyStatus
  | waiting
  | active
  | closed
deriving DecidableEq

/-- `type` field of a message document. -/
inductive MsgType
  | text
  | location
  | system
deriving DecidableEq

/-- One document of the `emergencies` collection, as written by
`triggerEmergency` (EmergencyContext.tsx lines 623-633) and updated later. -/
structure EmergencyDoc where
  id : Nat
  victimId : String
  victimName : String
  victimEmail : Option String
  victimPhone : Option String
  lat : Rat
  lng : Rat
  status : EmergencyStatus
  chatId : Option Nat
  languagePreference : String
deriving DecidableEq

/-- One document of the `chats` collection (`interface Chat`). The initial
creation omits `expiresAt`; it is filled in by a later update. -/
structure ChatDoc where
  id : Nat
  emergencyId : Nat
  participants : List String
  activeStatus : Bool
  expiresAt : Option Int
deriving DecidableEq

/-- One document of the `messages` collection (`interface ChatMessage`).
The initial activation message and the join message are written without a
`type` field, hence `type : Option MsgType`. -/
structure MessageDoc where
  chatId : Nat
  senderId : String
  senderName : String
  senderEmail : Option String
  senderPhone : Option String
  text : String
  type : Option MsgType
  lat : Option Rat
  lng : Option Rat
deriving DecidableEq

/-- One document of the `helperAlerts` collection, as written during fan-out
(EmergencyContext.tsx lines 684-695). -/
structure HelperAlertDoc where
  helperId : String
  emergencyId : Nat
  chatId : Nat
  victimName : String
  victimId : String
  lat : Rat
  lng : Rat
  distance : Rat
  deliveryStatus : String
deriving DecidableEq

/-- The identity/profile context (`user` plus `userProfile` fields used by the
engine). -/
structure UserProfile where
  uid : String
  displayName : Option String
  email : Option String
  phone : Option String
deriving DecidableEq

/-- The store collections together with the provider-local client state
mutated by the engine (`currentEmergency`, `currentChat`,
`isEmergencyActive`, `chatHelpers`), and the fresh-id counter standing for
Firestore id generation. -/
structure AppState where
  emergencies : List EmergencyDoc
  chats : List ChatDoc
  messages : List MessageDoc
  helperAlerts : List HelperAlertDoc
  currentEmergency : Option EmergencyDoc
  currentChat : Option ChatDoc
  isEmergencyActive : Bool
  chatHelpers : List HelperWithStatus
  nextId : Nat
deriving DecidableEq

/-- `updateDoc` on the `emergencies` collection addressed by id. -/
def updateEmergencyDoc (l : List EmergencyDoc) (i : Nat)
    (f : EmergencyDoc → EmergencyDoc) : List EmergencyDoc :=
  l.map (fun d => if d.id = i then f d else d)

/-- `updateDoc` on the `chats` collection addressed by id. -/
def updateChatDoc (l : List ChatDoc) (i : Nat)
    (f : ChatDoc → ChatDoc) : List ChatDoc :=
  l.map (fun d => if d.id = i then f d else d)

/-- `getDoc(doc(db, chats, id))`: Firestore ids are unique, so the first
match is the document. -/
def findChat (s : AppState) (i : Nat) : Option ChatDoc :=
  s.chats.find? (fun c => c.id = i)

/-- Firestore `arrayUnion(e1, e2, ...)`: append each element not already
present, keeping argument order. -/
def arrayUnion (l : List String) (new : List String) : List String :=
  new.foldl (fun acc u => if u ∈ acc then acc else acc ++ [u]) l

/-- `userProfile.displayName || "User"`. -/
def profileName (p : UserProfile) : String :=
  match p.displayName with
  | some d => if d = "" then "User" else d
  | none => "User"

/-- `CHAT_EXPIRY_MS = 60 * 60 * 1000` (EmergencyContext.tsx line 210). -/
def CHAT_EXPIRY_MS : Int := 60 * 60 * 1000

/-- Text of the initial activation system message (line 662). -/
def emergencyActivatedText : String :=
  "🚨 EMERGENCY ACTIVATED - Help is being requested"

/-- Text of the manual-resolution closing system message (line 781). -/
def resolvedText : String :=
  "✅ Help has been received! Emergency resolved. Thank you to all helpers!"

/-- Text of the auto-sent victim location message (line 711). -/
def locationMessageText (lat lng : Rat) : String :=
  "📍 My current location: https://maps.google.com/?q=" ++ toString lat
    ++ "," ++ toString lng

/-- The emergency record as first created, `status: waiting`, no `chatId`
yet (EmergencyContext.tsx lines 622-635). -/
def createEmergencyRecord (p : UserProfile) (lat lng : Rat) (lang : String)
    (eid : Nat) : EmergencyDoc :=
  { id := eid, victimId := p.uid, victimName := profileName p,
    victimEmail := jsStrOrNull p.email, victimPhone := jsStrOrNull p.phone,
    lat := lat, lng := lng, status := .waiting, chatId := none,
    languagePreference := lang }

/-- The chat record as first created: the victim is the sole participant and
the chat is active (EmergencyContext.tsx lines 638-646). -/
def createChatRecord (uid : String) (eid cid : Nat) : ChatDoc :=
  { id := cid, emergencyId := eid, participants := [uid],
    activeStatus := true, expiresAt := none }

/-- The initial system message posted right after chat creation
(EmergencyContext.tsx lines 658-664); it carries no `type` field. -/
def initialSystemMessage (cid : Nat) : MessageDoc :=
  { chatId := cid, senderId := "system", senderName := "System",
    senderEmail := none, senderPhone := none,
    text := emergencyActivatedText, type := none, lat := none, lng := none }

/-- The auto-sent victim location message (EmergencyContext.tsx lines
706-717). -/
def victimLocationMessage (cid : Nat) (uid : String) (p : UserProfile)
    (lat lng : Rat) : MessageDoc :=
  { chatId := cid, senderId := uid, senderName := profileName p,
    senderEmail := none, senderPhone := none,
    text := locationMessageText lat lng, type := some .location,
    lat := some lat, lng := some lng }

/-- The messages appended by one `triggerEmergency` call: the initial system
message always, then the victim-location message exactly when `lat && lng`
is truthy, i.e. both resolved coordinates are non-zero (lines 658-664 and
706-717). -/
def triggerMessages (cid : Nat) (uid : String) (p : UserProfile)
    (lat lng : Rat) : List MessageDoc :=
  [initialSystemMessage cid] ++
    (if lat ≠ 0 ∧ lng ≠ 0 then [victimLocationMessage cid uid p lat lng]
     else [])

/-- One `helperAlerts` document created during fan-out (lines 684-695). -/
def helperAlertFor (eid cid : Nat) (p : UserProfile) (lat lng : Rat)
    (h : HelperWithStatus) : HelperAlertDoc :=
  { helperId := h.id, emergencyId := eid, chatId := cid,
    victimName := profileName p, victimId := p.uid, lat := lat, lng := lng,
    distance := h.distance, deliveryStatus := "pending" }

/-- `triggerEmergency` (EmergencyContext.tsx lines 591-758).

Inputs mirror the ambient context the callback reads: the authenticated
`user`/`userProfile` pair (`none` when not logged in, in which case the call
only shows a toast and returns), the resolved location (`none` when both the
cached location and the fresh `updateLocation()` attempt failed, after which
the code substitutes `|| 0` for both coordinates), the UI language, the user
documents scanned by helper discovery, the distance function standing for the
haversine `calculateDistance`, and the current clock value in milliseconds.

The deferred one-hour expiry callback and the `setShowConfirmation(false)` /
`setConfirmationTimeout(5)` updates act on the SOS machine modelled
separately. -/
def triggerEmergency (auth : Option UserProfile) (loc : Option Location)
    (lang : String) (dist : Rat → Rat → Rat → Rat → Rat)
    (users : List UserDoc) (now : Int) (s : AppState) : AppState :=
  match auth with
  | none => s
  | some p =>
    let lat := (loc.map Location.latitude).getD 0
    let lng := (loc.map Location.longitude).getD 0
    let eid := s.nextId
    let cid := s.nextId + 1
    let emergencies1 := s.emergencies ++ [createEmergencyRecord p lat lng lang eid]
    let chats1 := s.chats ++ [createChatRecord p.uid eid cid]
    let emergencies2 := updateEmergencyDoc emergencies1 eid
      (fun e => { e with chatId := some cid })
    let found := findNearbyUsersWithExpansion dist lat lng p.uid now users
    let nearbyUsers := found.1
    let chats2 :=
      if nearbyUsers.length > 0 then
        updateChatDoc chats1 cid (fun c =>
          { c with participants :=
              arrayUnion c.participants (p.uid :: nearbyUsers.map HelperWithStatus.id) })
      else chats1
    let newAlerts :=
      if nearbyUsers.length > 0 then
        nearbyUsers.map (helperAlertFor eid cid p lat lng)
      else []
    let emergencies3 := updateEmergencyDoc emergencies2 eid
      (fun e => { e with status := .active })
    let chats3 := updateChatDoc chats2 cid
      (fun c => { c with expiresAt := some (now + CHAT_EXPIRY_MS) })
    { s with
      emergencies := emergencies3,
      chats := chats3,
      messages := s.messages ++ triggerMessages cid p.uid p lat lng,
      helperAlerts := s.helperAlerts ++ newAlerts,
      currentChat := some (createChatRecord p.uid eid cid),
      chatHelpers := nearbyUsers,
      isEmergencyActive := true,
      nextId := s.nextId + 2 }

/-- The closing system message posted by manual resolution
(EmergencyContext.tsx lines 777-784). -/
def closingMessage (cid : Nat) : MessageDoc :=
  { chatId := cid, senderId := "system", senderName := "System",
    senderEmail := none, senderPhone := none, text := resolvedText,
    type := some .system, lat := none, lng := none }

/-- `resolveEmergency` (EmergencyContext.tsx lines 760-809): a no-op unless
both a current emergency and an authenticated user exist; closes the
emergency, and — when a current chat exists — deactivates it and posts the
closing system message; finally clears the local emergency/chat state. -/
def resolveEmergency (authUid : Option String) (s : AppState) : AppState :=
  match s.currentEmergency, authUid with
  | some e, some _ =>
    let emergencies1 := updateEmergencyDoc s.emergencies e.id
      (fun d => { d with status := .closed })
    match s.currentChat with
    | some c =>
      { s with
        emergencies := emergencies1,
        chats := updateChatDoc s.chats c.id
          (fun d => { d with activeStatus := false }),
        messages := s.messages ++ [closingMessage c.id],
        currentEmergency := none, currentChat := none,
        isEmergencyActive := false, chatHelpers := [] }
    | none =>
      { s with
        emergencies := emergencies1,
        currentEmergency := none, currentChat := none,
        isEmergencyActive := false, chatHelpers := [] }
  | _, _ => s

/-- A plain chat text message (EmergencyContext.tsx lines 883-892). -/
def chatTextMessage (cid : Nat) (uid : String) (p : UserProfile)
    (text : String) : MessageDoc :=
  { chatId := cid, senderId := uid, senderName := profileName p,
    senderEmail := jsStrOrNull p.email, senderPhone := jsStrOrNull p.phone,
    text := text, type := some .text, lat := none, lng := none }

/-- `sendChatMessage` (EmergencyContext.tsx lines 852-901): a no-op without a
current chat and an authenticated user/profile; rejected (toast only, no
writes) when the current chat's `activeStatus` is false; otherwise the sender
is re-added to the stored participant list if absent and the message is
appended. -/
def sendChatMessage (uid : Option String) (profile : Option UserProfile)
    (text : String) (s : AppState) : AppState :=
  match s.currentChat, uid, profile with
  | some c, some u, some p =>
    if c.activeStatus = false then s
    else
      let chats1 :=
        match findChat s c.id with
        | some sc =>
          if u ∈ sc.participants then s.chats
          else updateChatDoc s.chats c.id (fun d =>
            { d with participants := arrayUnion d.participants [u] })
        | none => s.chats
      { s with chats := chats1,
               messages := s.messages ++ [chatTextMessage c.id u p text] }
  | _, _, _ => s

/-- `userProfile?.displayName || "A helper"` (EmergencyContext.tsx line 979). -/
def joinDisplayName (profile : Option UserProfile) : String :=
  match profile with
  | some p =>
    match p.displayName with
    | some d => if d = "" then "A helper" else d
    | none => "A helper"
  | none => "A helper"

/-- The "has joined" system message (EmergencyContext.tsx lines 975-981);
written without a `type` field. -/
def joinMessage (cid : Nat) (name : String) : MessageDoc :=
  { chatId := cid, senderId := "system", senderName := "System",
    senderEmail := none, senderPhone := none,
    text := "👋 " ++ name ++ " has joined to help", type := none,
    lat := none, lng := none }

/-- `joinEmergencyChat` (EmergencyContext.tsx lines 958-998): a no-op without
an authenticated user or without a `chatId` on the alert, and when the chat
document does not exist; otherwise the caller is added to the stored
participant list via `arrayUnion` and the join message is posted, both only
when the caller is not yet a participant; the local `currentChat` copy is
set in every found case. -/
def joinEmergencyChat (uid : Option String) (profile : Option UserProfile)
    (em : EmergencyDoc) (s : AppState) : AppState :=
  match uid, em.chatId with
  | some u, some cid =>
    (match findChat s cid with
     | none => s
     | some c =>
       let localCopy : ChatDoc := { c with participants := c.participants ++ [u] }
       if u ∈ c.participants then
         { s with currentChat := some localCopy }
       else
         { s with
           chats := updateChatDoc s.chats cid (fun d =>
             { d with participants := arrayUnion d.participants [u] }),
           messages := s.messages ++ [joinMessage cid (joinDisplayName profile)],
           currentChat := some localCopy })
  | _, _ => s

/-- One step of a sequence of join calls on the same emergency chat. -/
def joinStep (em : EmergencyDoc) (s : AppState) (u : String) : AppState :=
  joinEmergencyChat (some u) none em s

/-- A whole sequence of join calls on the same emergency chat. -/
def joinAll (em : EmergencyDoc) (s : AppState) (joiners : List String) :
    AppState :=
  joiners.foldl (joinStep em) s

/-! ## SOS activation state machines -/

/-- State touched by the rapid-tap path: the tap counter, the
`showConfirmation` flag that opens the 5-second confirmation popup (the
`Confirming` state), the pending 1500 ms window timer modelled by its absolute
deadline, and a count of direct invocations of the Session Manager's trigger
operation (`triggerEmergency`) — `registerRapidTap` never performs such an
invocation. Initial React state: counter 0, popup hidden, no timer pending. -/
structure TapState where
  rapidTapCount : Nat
  showConfirmation : Bool
  windowDeadline : Option Nat
  triggerInvocations : Nat
deriving DecidableEq

/-- The initial SOS state (`useState(0)`, `useState(false)`, no pending
timer). -/
def initTapState : TapState :=
  { rapidTapCount := 0, showConfirmation := false, windowDeadline := none,
    triggerInvocations := 0 }

/-- `registerRapidTap` called at absolute time `t` ms (EmergencyContext.tsx
lines 1000-1017). If the pending 1500 ms window timer's deadline has already
passed, its callback (`setRapidTapCount(0)`) ran before this tap. The tap
then clears any pending timer, increments the counter — opening the
confirmation popup and resetting the counter when the count reaches 3 — and
restarts the window timer 1500 ms from now. -/
def tapAt (t : Nat) (s : TapState) : TapState :=
  let s1 :=
    match s.windowDeadline with
    | some d =>
      if d ≤ t then { s with rapidTapCount := 0, windowDeadline := none }
      else s
    | none => s
  let n := s1.rapidTapCount + 1
  let s2 :=
    if n ≥ 3 then
      { s1 with rapidTapCount := 0, showConfirmation := true }
    else { s1 with rapidTapCount := n }
  { s2 with windowDeadline := some (t + 1500) }

/-- State touched by the hold gesture (SOSButton.tsx lines 20-72):
`isHoldingRef`, the synchronized `progressRef`/`sosHoldProgress` value, the
`showConfirmation` flag set by hold completion, and a count of
`registerRapidTap()` calls issued by `endHold`. -/
structure HoldState where
  isHolding : Bool
  progress : Rat
  showConfirmation : Bool
  rapidTaps : Nat
deriving DecidableEq

/-- `HOLD_DURATION = 3000` ms (SOSButton.tsx line 25). -/
def HOLD_DURATION : Rat := 3000

/-- `PROGRESS_INTERVAL = 50` ms (SOSButton.tsx line 26). -/
def PROGRESS_INTERVAL : Rat := 50

/-- `startHold` (SOSButton.tsx lines 28-54): marks the press as held and
resets progress to 0. (The `isLoadingLocation` guard keeps the handler from
running at all; the location fetch it kicks off is external to the machine.) -/
def startHold (s : HoldState) : HoldState :=
  { s with isHolding := true, progress := 0 }

/-- One 50 ms firing of the progress interval (SOSButton.tsx lines 40-43):
`progress := min(progress + (PROGRESS_INTERVAL / HOLD_DURATION) * 100, 100)`. -/
def progressTick (s : HoldState) : HoldState :=
  let p := min (s.progress + PROGRESS_INTERVAL / HOLD_DURATION * 100) 100
  { s with progress := p }

/-- `n` firings of the progress interval. -/
def applyTicks : Nat → HoldState → HoldState
  | 0, s => s
  | n + 1, s => applyTicks n (progressTick s)

/-- The 3000 ms hold-completion timeout (SOSButton.tsx lines 46-53): if the
press is still held, open the confirmation popup and reset progress. -/
def holdComplete (s : HoldState) : HoldState :=
  if s.isHolding then
    { s with showConfirmation := true, progress := 0 }
  else s

/-- `endHold` (SOSButton.tsx lines 56-72): stop holding, cancel both timers,
call `registerRapidTap()` exactly when progress is strictly between 0 and
100, then reset progress to 0. -/
def endHold (s : HoldState) : HoldState :=
  let s1 := { s with isHolding := false }
  let s2 :=
    if 0 < s1.progress ∧ s1.progress < 100 then
      { s1 with rapidTaps := s1.rapidTaps + 1 }
    else s1
  { s2 with progress := 0 }

/-- State of the confirmation countdown (EmergencyContext.tsx lines 484-494):
the popup flag, the remaining seconds, and the list of trigger invocations
issued so far, each recorded with the reason argument the code passes —
`triggerEmergency()` is invoked with no arguments, so every recorded reason
is `none`. -/
structure ConfState where
  showConfirmation : Bool
  confirmationTimeout : Nat
  triggerReasons : List (Option String)
deriving DecidableEq

/-- The synchronous prefix of `triggerEmergency` as seen by the countdown
machine (EmergencyContext.tsx lines 591-602): the invocation itself (no
reason argument exists in the code), then — when a user is logged in —
`setShowConfirmation(false)` and `setConfirmationTimeout(5)`; without a user
the function returns after a toast, before touching the SOS state. -/
def invokeTrigger (authed : Bool) (s : ConfState) : ConfState :=
  if authed then
    { s with triggerReasons := s.triggerReasons ++ [none],
             showConfirmation := false, confirmationTimeout := 5 }
  else { s with triggerReasons := s.triggerReasons ++ [none] }

/-- One execution of the countdown effect body together with the firing of
the 1-second timer it schedules (EmergencyContext.tsx lines 484-494): while
the popup is shown and the countdown is positive, the scheduled timer
decrements it; at 0 with the popup still shown, `triggerEmergency()` is
invoked; otherwise nothing happens. React re-runs the effect only when
`showConfirmation` or `confirmationTimeout` changed, and each run sees the
current values, so a run of the countdown is an iteration of this step. -/
def confirmEffectStep (authed : Bool) (s : ConfState) : ConfState :=
  if s.showConfirmation = true ∧ 0 < s.confirmationTimeout then
    { s with confirmationTimeout := s.confirmationTimeout - 1 }
  else if s.showConfirmation = true ∧ s.confirmationTimeout = 0 then
    invokeTrigger authed s
  else s

/-- `n` successive countdown steps. -/
def countdownRun (authed : Bool) : Nat → ConfState → ConfState
  | 0, s => s
  | n + 1, s => countdownRun authed n (confirmEffectStep authed s)

/-! ## Helper lemmas -/

/-- The progress interval never touches `isHoldingRef`. -/
theorem applyTicks_isHolding (n : Nat) (s : HoldState) :
    (applyTicks n s).isHolding = s.isHolding := by
  induction n generalizing s with
  | zero => rfl
  | succ n ih => simpa [applyTicks, progressTick] using ih (progressTick s)

/-- A countdown state with the popup hidden is a fixpoint of the effect. -/
theorem countdownRun_fix (authed : Bool) (k : Nat) (s : ConfState)
    (h : s.showConfirmation = false) : countdownRun authed k s = s := by
  induction k with
  | zero => rfl
  | succ k ih => simpa [countdownRun, confirmEffectStep, h] using ih

/-- Countdown steps compose. -/
theorem countdownRun_add (authed : Bool) (a b : Nat) (s : ConfState) :
    countdownRun authed (a + b) s = countdownRun authed b (countdownRun authed a s) := by
  induction a generalizing s with
  | zero => simp [countdownRun]
  | succ a ih =>
    have : a + 1 + b = (a + b) + 1 := by omega
    rw [this]
    simpa [countdownRun] using ih (confirmEffectStep authed s)

/-- Running the countdown for as many steps as remain leaves the popup shown
with the timer at 0. -/
theorem countdownRun_to_zero (authed : Bool) (n : Nat) (c : List (Option String)) :
    countdownRun authed n
        { showConfirmation := true, confirmationTimeout := n, triggerReasons := c }
      = { showConfirmation := true, confirmationTimeout := 0, triggerReasons := c } := by
  induction n with
  | zero => rfl
  | succ n ih =>
    have hstep : confirmEffectStep authed
        { showConfirmation := true, confirmationTimeout := n + 1, triggerReasons := c }
        = { showConfirmation := true, confirmationTimeout := n, triggerReasons := c } := by
      simp [confirmEffectStep]
    rw [countdownRun, hstep, ih]

/-! ## Claim C8 — hold gesture -/

/-- Claim C8: releasing the hold gesture while progress is strictly between 0
and 100 registers exactly one rapid-tap and resets progress to 0; releasing
at progress 0 or 100 registers no tap; a hold sustained for the full 3000 ms
(here: any number of progress ticks followed by the hold-completion timeout
firing while still held) always transitions to Confirming with progress reset
to 0. -/
theorem holdRelease_spec :
    (∀ s : HoldState, 0 < s.progress → s.progress < 100 →
      (endHold s).rapidTaps = s.rapidTaps + 1 ∧ (endHold s).progress = 0)
  ∧ (∀ s : HoldState, s.progress = 0 ∨ s.progress = 100 →
      (endHold s).rapidTaps = s.rapidTaps ∧ (endHold s).progress = 0)
  ∧ (∀ (s : HoldState) (n : Nat),
      (holdComplete (applyTicks n (startHold s))).showConfirmation = true
    ∧ (holdComplete (applyTicks n (startHold s))).progress = 0) := by
  refine ⟨?_, ?_, ?_⟩
  · intro s h1 h2
    simp [endHold, h1, h2]
  · intro s h
    rcases h with h | h <;> simp [endHold, h]
  · intro s n
    have hold : (applyTicks n (startHold s)).isHolding = true := by
      rw [applyTicks_isHolding]; rfl
    simp [holdComplete, hold]

/-- Witness for C8: releasing at 50 % progress registers exactly one
rapid-tap. -/
theorem holdRelease_witness :
    (0 : Rat) < 50 ∧ (50 : Rat) < 100 ∧
      ((endHold { isHolding := true, progress := 50, showConfirmation := false,
                  rapidTaps := 0 }).rapidTaps = 0 + 1
      ∧ (endHold { isHolding := true, progress := 50, showConfirmation := false,
                   rapidTaps := 0 }).progress = 0) :=
  ⟨by decide, by decide,
    holdRelease_spec.1
      { isHolding := true, progress := 50, showConfirmation := false,
        rapidTaps := 0 } (by decide) (by decide)⟩

/-! ## Claim C1 — rapid-tap path -/

/-- Counterexample for C1 as stated: after three qualifying taps (at 0 ms,
100 ms and 200 ms, all within the rolling window) the machine is in the
Confirming state — the confirmation popup is shown with its countdown ahead —
and the Session Manager's trigger operation has not been invoked, so the
third tap does not transition directly to `Triggered` bypassing
confirmation. -/
theorem rapidTap_counterexample :
    (tapAt 200 (tapAt 100 (tapAt 0 initTapState))).showConfirmation = true
  ∧ (tapAt 200 (tapAt 100 (tapAt 0 initTapState))).triggerInvocations = 0
  ∧ (tapAt 200 (tapAt 100 (tapAt 0 initTapState))).rapidTapCount = 0 := by
  decide

/-- Claim C1 as amended: the third qualifying tap within the rolling window
transitions to Confirming (it opens the confirmation popup, not `Triggered`
directly) and resets the tap counter to 0; the window timer restarts on every
tap; a tap arriving after the window has elapsed starts a fresh count of 1. -/
theorem rapidTap_amended (t1 t2 t3 : Nat)
    (h12 : t2 < t1 + 1500) (h23 : t3 < t2 + 1500) :
    ((tapAt t3 (tapAt t2 (tapAt t1 initTapState))).showConfirmation = true
    ∧ (tapAt t3 (tapAt t2 (tapAt t1 initTapState))).rapidTapCount = 0
    ∧ (tapAt t3 (tapAt t2 (tapAt t1 initTapState))).triggerInvocations = 0)
  ∧ (∀ (t : Nat) (s : TapState), (tapAt t s).windowDeadline = some (t + 1500))
  ∧ (∀ (t d : Nat) (s : TapState), s.windowDeadline = some d → d < t →
      (tapAt t s).rapidTapCount = 1) := by
  refine ⟨?_, ?_, ?_⟩
  · have e1 : tapAt t1 initTapState =
        { rapidTapCount := 1, showConfirmation := false,
          windowDeadline := some (t1 + 1500), triggerInvocations := 0 } := by
      simp [tapAt, initTapState]
    have e2 : tapAt t2 (tapAt t1 initTapState) =
        { rapidTapCount := 2, showConfirmation := false,
          windowDeadline := some (t2 + 1500), triggerInvocations := 0 } := by
      rw [e1]
      simp [tapAt, Nat.not_le.mpr h12]
    have e3 : tapAt t3 (tapAt t2 (tapAt t1 initTapState)) =
        { rapidTapCount := 0, showConfirmation := true,
          windowDeadline := some (t3 + 1500), triggerInvocations := 0 } := by
      rw [e2]
      simp [tapAt, Nat.not_le.mpr h23]
    rw [e3]
    exact ⟨rfl, rfl, rfl⟩
  · intro t s
    simp [tapAt]
  · intro t d s hd hdt
    simp [tapAt, hd, Nat.le_of_lt hdt]

/-- Witness for C1 (amended): taps at 0 ms, 100 ms, 200 ms. -/
theorem rapidTap_amended_witness :
    (100 < 0 + 1500) ∧ (200 < 100 + 1500) ∧
      (((tapAt 200 (tapAt 100 (tapAt 0 initTapState))).showConfirmation = true
      ∧ (tapAt 200 (tapAt 100 (tapAt 0 initTapState))).rapidTapCount = 0
      ∧ (tapAt 200 (tapAt 100 (tapAt 0 initTapState))).triggerInvocations = 0)
    ∧ (∀ (t : Nat) (s : TapState), (tapAt t s).windowDeadline = some (t + 1500))
    ∧ (∀ (t d : Nat) (s : TapState), s.windowDeadline = some d → d < t →
        (tapAt t s).rapidTapCount = 1)) :=
  ⟨by decide, by decide, rapidTap_amended 0 100 200 (by decide) (by decide)⟩

/-! ## Claim C4 — confirmation countdown auto-trigger -/

/-- Counterexample for C4 as stated: running the countdown from a freshly
shown popup (5 seconds remaining) to completion invokes the trigger operation
exactly once, but the invocation carries no trigger reason at all — in
particular not the reason "auto" the claim requires — because
`triggerEmergency()` takes no arguments. -/
theorem countdown_counterexample :
    (countdownRun true 7
        { showConfirmation := true, confirmationTimeout := 5,
          triggerReasons := [] }).triggerReasons = [none]
  ∧ some "auto" ∉ (countdownRun true 7
        { showConfirmation := true, confirmationTimeout := 5,
          triggerReasons := [] }).triggerReasons := by
  decide

/-- Claim C4 as amended: when the confirmation countdown reaches 0 with no
user action, the trigger operation is invoked exactly once (the code records
no trigger reason — `triggerEmergency()` takes no arguments); it is never
invoked twice for one countdown, no matter how many further effect
executions follow the triggering one. -/
theorem countdown_amended (n k : Nat) (c : List (Option String)) :
    (countdownRun true (n + 1 + k)
        { showConfirmation := true, confirmationTimeout := n,
          triggerReasons := c }).triggerReasons = c ++ [none]
  ∧ (countdownRun true (n + 1 + k)
        { showConfirmation := true, confirmationTimeout := n,
          triggerReasons := c }).showConfirmation = false := by
  have h1 : countdownRun true (n + 1 + k)
      { showConfirmation := true, confirmationTimeout := n, triggerReasons := c }
      = countdownRun true k (countdownRun true 1 (countdownRun true n
          { showConfirmation := true, confirmationTimeout := n,
            triggerReasons := c })) := by
    rw [← countdownRun_add, ← countdownRun_add]
    ring_nf
  have h2 : countdownRun true 1
      { showConfirmation := true, confirmationTimeout := 0, triggerReasons := c }
      = { showConfirmation := false, confirmationTimeout := 5,
          triggerReasons := c ++ [none] } := by
    simp [countdownRun, confirmEffectStep, invokeTrigger]
  rw [h1, countdownRun_to_zero, h2, countdownRun_fix]
  · exact ⟨rfl, rfl⟩
  · rfl

/-! ## Claim C3 — resolveEmergency -/

/-- Claim C3: with a current emergency and its chat, `resolveEmergency` sets
the emergency's status to closed, the chat's `activeStatus` to false, and
appends exactly one closing system message; a second call (the local
emergency reference having been cleared) is a no-op, as is any call without a
current emergency — no further closing message, no error. -/
theorem resolveEmergency_spec (u : String) (s : AppState) (e : EmergencyDoc)
    (c : ChatDoc) (he : s.currentEmergency = some e)
    (hc : s.currentChat = some c) :
    (∀ d ∈ (resolveEmergency (some u) s).emergencies, d.id = e.id →
        d.status = .closed)
  ∧ (∀ d ∈ (resolveEmergency (some u) s).chats, d.id = c.id →
        d.activeStatus = false)
  ∧ (resolveEmergency (some u) s).messages = s.messages ++ [closingMessage c.id]
  ∧ resolveEmergency (some u) (resolveEmergency (some u) s)
      = resolveEmergency (some u) s
  ∧ (∀ (t : AppState) (au : Option String), t.currentEmergency = none →
        resolveEmergency au t = t) := by
  have hnone : ∀ (t : AppState) (au : Option String), t.currentEmergency = none →
      resolveEmergency au t = t := by
    intro t au ht
    cases au <;> simp [resolveEmergency, ht]
  refine ⟨?_, ?_, ?_, ?_, hnone⟩
  · intro d hd hdi
    simp only [resolveEmergency, he, hc] at hd
    simp only [updateEmergencyDoc, List.mem_map] at hd
    obtain ⟨x, _, hx⟩ := hd
    by_cases hxe : x.id = e.id
    · rw [if_pos hxe] at hx
      rw [← hx]
    · rw [if_neg hxe] at hx
      rw [← hx] at hdi
      exact absurd hdi hxe
  · intro d hd hdi
    simp only [resolveEmergency, he, hc] at hd
    simp only [updateChatDoc, List.mem_map] at hd
    obtain ⟨x, _, hx⟩ := hd
    by_cases hxc : x.id = c.id
    · rw [if_pos hxc] at hx
      rw [← hx]
    · rw [if_neg hxc] at hx
      rw [← hx] at hdi
      exact absurd hdi hxc
  · simp [resolveEmergency, he, hc]
  · apply hnone
    simp [resolveEmergency, he, hc]

/-- Concrete emergency document used by witnesses. -/
def wEmergency : EmergencyDoc :=
  { id := 1, victimId := "victim", victimName := "Victim",
    victimEmail := none, victimPhone := none, lat := 10, lng := 20,
    status := .active, chatId := some 2, languagePreference := "en" }

/-- Concrete chat document used by witnesses. -/
def wChat : ChatDoc :=
  { id := 2, emergencyId := 1, participants := ["victim"],
    activeStatus := true, expiresAt := none }

/-- Concrete app state used by witnesses. -/
def wState : AppState :=
  { emergencies := [wEmergency], chats := [wChat], messages := [],
    helperAlerts := [], currentEmergency := some wEmergency,
    currentChat := some wChat, isEmergencyActive := true, chatHelpers := [],
    nextId := 3 }

/-- Witness for C3: resolving the concrete active emergency. -/
theorem resolveEmergency_witness :
    wState.currentEmergency = some wEmergency
  ∧ wState.currentChat = some wChat
  ∧ ((∀ d ∈ (resolveEmergency (some "victim") wState).emergencies,
        d.id = wEmergency.id → d.status = .closed)
    ∧ (∀ d ∈ (resolveEmergency (some "victim") wState).chats,
        d.id = wChat.id → d.activeStatus = false)
    ∧ (resolveEmergency (some "victim") wState).messages
        = wState.messages ++ [closingMessage wChat.id]
    ∧ resolveEmergency (some "victim") (resolveEmergency (some "victim") wState)
        = resolveEmergency (some "victim") wState
    ∧ (∀ (t : AppState) (au : Option String), t.currentEmergency = none →
        resolveEmergency au t = t)) :=
  ⟨rfl, rfl, resolveEmergency_spec "victim" wState wEmergency wChat rfl rfl⟩

/-! ## Claim C7 — sendChatMessage -/

/-- `arrayUnion` with a single element. -/
theorem arrayUnion_singleton (l : List String) (u : String) :
    arrayUnion l [u] = if u ∈ l then l else l ++ [u] := rfl

/-- `find?` by id commutes with an id-preserving update at that id. -/
theorem find?_updateChatDoc (l : List ChatDoc) (i : Nat) (f : ChatDoc → ChatDoc)
    (hid : ∀ d, (f d).id = d.id) :
    (updateChatDoc l i f).find? (fun c => c.id = i)
      = (l.find? (fun c => c.id = i)).map f := by
  induction l with
  | nil => rfl
  | cons a l ih =>
    by_cases h : a.id = i
    · simp [updateChatDoc, List.find?_cons, hid, h]
    · simp only [updateChatDoc, List.map_cons, if_neg h] at *
      rw [List.find?_cons, List.find?_cons]
      simp only [h, decide_eq_false, Bool.false_eq_true, if_false]
      simpa using ih

/-- Claim C7: with the current chat inactive, `sendChatMessage` is a no-op
(the "chat ended" toast aside) and creates no message document; with it
active, the message is appended and the sender is re-added to the stored
participant list when absent. -/
theorem sendChatMessage_spec (u : String) (p : UserProfile) (text : String)
    (s : AppState) (c : ChatDoc) (hc : s.currentChat = some c) :
    (c.activeStatus = false → sendChatMessage (some u) (some p) text s = s)
  ∧ (c.activeStatus = true →
      (sendChatMessage (some u) (some p) text s).messages
        = s.messages ++ [chatTextMessage c.id u p text]
    ∧ (∀ sc, findChat s c.id = some sc →
        (u ∈ sc.participants →
            (sendChatMessage (some u) (some p) text s).chats = s.chats)
      ∧ (u ∉ sc.participants →
            findChat (sendChatMessage (some u) (some p) text s) c.id
              = some { sc with participants := sc.participants ++ [u] }))) := by
  constructor
  · intro h
    simp [sendChatMessage, hc, h]
  · intro h
    constructor
    · simp [sendChatMessage, hc, h]
    · intro sc hsc
      constructor
      · intro hu
        simp [sendChatMessage, hc, h, findChat] at *
        simp [hsc, hu]
      · intro hu
        simp only [sendChatMessage, hc, h]
        simp only [Bool.true_eq_false, if_false]
        rw [hsc]
        simp only [if_neg hu]
        show List.find? (fun d => d.id = c.id)
            (updateChatDoc s.chats c.id
              (fun d => { d with participants := arrayUnion d.participants [u] }))
          = _
        rw [find?_updateChatDoc s.chats c.id
          (fun d => { d with participants := arrayUnion d.participants [u] })
          (fun d => rfl)]
        have : List.find? (fun d => d.id = c.id) s.chats = some sc := hsc
        rw [this]
        simp [arrayUnion_singleton, hu]

/-- Witness for C7: sending into the concrete active chat re-adds the absent
sender. -/
theorem sendChatMessage_witness :
    wState.currentChat = some wChat
  ∧ wChat.activeStatus = true
  ∧ findChat wState wChat.id = some wChat
  ∧ ("helper" ∉ wChat.participants)
  ∧ findChat (sendChatMessage (some "helper")
        (some { uid := "helper", displayName := some "Helper H",
                email := none, phone := none }) "on my way" wState) wChat.id
      = some { wChat with participants := wChat.participants ++ ["helper"] } :=
  ⟨rfl, rfl, rfl, by decide,
    (((sendChatMessage_spec "helper"
        { uid := "helper", displayName := some "Helper H", email := none,
          phone := none } "on my way" wState wChat rfl).2 rfl).2 wChat rfl).2
      (by decide)⟩

/-! ## Claim C6 — join calls and participant union -/

/-- Effect of one join call on the stored chat document. -/
theorem joinStep_findChat (em : EmergencyDoc) (cid : Nat)
    (hcid : em.chatId = some cid) (s : AppState) (c : ChatDoc) (u : String)
    (hc : findChat s cid = some c) :
    findChat (joinStep em s u) cid
      = some (if u ∈ c.participants then c
              else { c with participants := c.participants ++ [u] }) := by
  by_cases hu : u ∈ c.participants
  · simp only [joinStep, joinEmergencyChat, hcid]
    rw [hc]
    simp only [if_pos hu, findChat]
    exact hc
  · simp only [joinStep, joinEmergencyChat, hcid]
    rw [hc]
    simp only [if_neg hu]
    show List.find? (fun d => d.id = cid)
        (updateChatDoc s.chats cid
          (fun d => { d with participants := arrayUnion d.participants [u] }))
      = _
    rw [find?_updateChatDoc s.chats cid
      (fun d => { d with participants := arrayUnion d.participants [u] })
      (fun d => rfl)]
    have : List.find? (fun d => d.id = cid) s.chats = some c := hc
    rw [this]
    simp [arrayUnion_singleton, hu]

/-- A sequence of joins accumulates exactly the union of the joiners into the
stored participant list. -/
theorem joinAll_findChat (em : EmergencyDoc) (cid : Nat)
    (hcid : em.chatId = some cid) :
    ∀ (joiners : List String) (s : AppState) (c : ChatDoc),
      findChat s cid = some c →
      ∃ d, findChat (joinAll em s joiners) cid = some d
        ∧ d.participants.toFinset
            = c.participants.toFinset ∪ joiners.toFinset := by
  intro joiners
  induction joiners with
  | nil =>
    intro s c hc
    exact ⟨c, hc, by simp [joinAll]⟩
  | cons j js ih =>
    intro s c hc
    have hstep := joinStep_findChat em cid hcid s c j hc
    have hfold : joinAll em s (j :: js) = joinAll em (joinStep em s j) js := rfl
    by_cases hj : j ∈ c.participants
    · rw [if_pos hj] at hstep
      obtain ⟨d, hd, hset⟩ := ih (joinStep em s j) c hstep
      refine ⟨d, by rw [hfold]; exact hd, ?_⟩
      rw [hset]
      ext x
      simp only [Finset.mem_union, List.mem_toFinset, List.toFinset_cons,
        Finset.mem_insert]
      constructor
      · rintro (hx | hx)
        · exact Or.inl hx
        · exact Or.inr (Or.inr hx)
      · rintro (hx | hx | hx)
        · exact Or.inl hx
        · exact Or.inl (hx ▸ hj)
        · exact Or.inr hx
    · rw [if_neg hj] at hstep
      obtain ⟨d, hd, hset⟩ := ih (joinStep em s j)
        { c with participants := c.participants ++ [j] } hstep
      refine ⟨d, by rw [hfold]; exact hd, ?_⟩
      rw [hset]
      ext x
      simp only [Finset.mem_union, List.mem_toFinset, List.toFinset_cons,
        Finset.mem_insert, List.mem_append, List.mem_singleton]
      tauto

/-- Claim C6: over any sequence of join calls on the same session the stored
participant set is the union of the existing members with the joiners,
independent of order and duplication; the "has joined" message is posted
exactly on a caller's first admission, and a repeated join by an existing
participant changes neither the stored chats nor the messages. -/
theorem joinChat_spec (em : EmergencyDoc) (cid : Nat) (s : AppState)
    (c : ChatDoc) (hcid : em.chatId = some cid)
    (hc : findChat s cid = some c) :
    (∀ joiners : List String, ∃ d,
        findChat (joinAll em s joiners) cid = some d
      ∧ d.participants.toFinset = c.participants.toFinset ∪ joiners.toFinset)
  ∧ (∀ l1 l2 : List String, l1.Perm l2 → ∀ d1 d2,
        findChat (joinAll em s l1) cid = some d1 →
        findChat (joinAll em s l2) cid = some d2 →
        d1.participants.toFinset = d2.participants.toFinset)
  ∧ (∀ (u : String) (profile : Option UserProfile), u ∉ c.participants →
        (joinEmergencyChat (some u) profile em s).messages
          = s.messages ++ [joinMessage cid (joinDisplayName profile)])
  ∧ (∀ (u : String) (profile : Option UserProfile), u ∈ c.participants →
        (joinEmergencyChat (some u) profile em s).chats = s.chats
      ∧ (joinEmergencyChat (some u) profile em s).messages = s.messages) := by
  refine ⟨fun joiners => joinAll_findChat em cid hcid joiners s c hc,
    ?_, ?_, ?_⟩
  · intro l1 l2 hperm d1 d2 hd1 hd2
    obtain ⟨e1, he1, hs1⟩ := joinAll_findChat em cid hcid l1 s c hc
    obtain ⟨e2, he2, hs2⟩ := joinAll_findChat em cid hcid l2 s c hc
    rw [hd1] at he1
    rw [hd2] at he2
    cases he1
    cases he2
    rw [hs1, hs2, List.toFinset_eq_of_perm l1 l2 hperm]
  · intro u profile hu
    simp [joinEmergencyChat, hcid, hc, hu]
  · intro u profile hu
    constructor <;> simp [joinEmergencyChat, hcid, hc, hu]

/-- Witness for C6: two helpers and a duplicate join the concrete chat. -/
theorem joinChat_witness :
    wEmergency.chatId = some 2
  ∧ findChat wState 2 = some wChat
  ∧ ∃ d, findChat (joinAll wEmergency wState ["a", "b", "a"]) 2 = some d
      ∧ d.participants.toFinset
          = wChat.participants.toFinset ∪ ["a", "b", "a"].toFinset :=
  ⟨rfl, rfl, (joinChat_spec wEmergency 2 wState wChat rfl rfl).1 ["a", "b", "a"]⟩

/-! ## Claims C5 and C10 — triggerEmergency -/

/-- The new emergency document as it stands at the end of one
`triggerEmergency` call: the created record with the chat linked and the
status advanced to active. -/
def finalEmergencyRecord (p : UserProfile) (lat lng : Rat) (lang : String)
    (eid cid : Nat) : EmergencyDoc :=
  { createEmergencyRecord p lat lng lang eid with
      chatId := some cid, status := .active }

/-- The new chat document as it stands at the end of one `triggerEmergency`
call: the created record, with the helper ids unioned in when fan-out found
helpers, and the one-hour expiry stamped. -/
def finalChatRecord (uid : String) (eid cid : Nat)
    (nearbyUsers : List HelperWithStatus) (now : Int) : ChatDoc :=
  let base := createChatRecord uid eid cid
  let parts := arrayUnion base.participants (uid :: nearbyUsers.map HelperWithStatus.id)
  let withHelpers := if nearbyUsers.length > 0 then { base with participants := parts } else base
  { withHelpers with expiresAt := some (now + CHAT_EXPIRY_MS) }

/-- An element hit by an id-addressed emergency update maps through the
update function. -/
theorem mem_updateEmergencyDoc_of_mem {l : List EmergencyDoc}
    {x : EmergencyDoc} (hx : x ∈ l) (i : Nat) (f : EmergencyDoc → EmergencyDoc)
    (hxi : x.id = i) : f x ∈ updateEmergencyDoc l i f := by
  have := List.mem_map_of_mem (fun d => if d.id = i then f d else d) hx
  simpa [updateEmergencyDoc, hxi] using this

/-- An element missed by an id-addressed emergency update is unchanged. -/
theorem mem_updateEmergencyDoc_of_ne {l : List EmergencyDoc}
    {x : EmergencyDoc} (hx : x ∈ l) (i : Nat) (f : EmergencyDoc → EmergencyDoc)
    (hxi : x.id ≠ i) : x ∈ updateEmergencyDoc l i f := by
  have := List.mem_map_of_mem (fun d => if d.id = i then f d else d) hx
  simpa [updateEmergencyDoc, hxi] using this

/-- An element hit by an id-addressed chat update maps through the update
function. -/
theorem mem_updateChatDoc_of_mem {l : List ChatDoc} {x : ChatDoc}
    (hx : x ∈ l) (i : Nat) (f : ChatDoc → ChatDoc) (hxi : x.id = i) :
    f x ∈ updateChatDoc l i f := by
  have := List.mem_map_of_mem (fun d => if d.id = i then f d else d) hx
  simpa [updateChatDoc, hxi] using this

/-- Claim C5: every successful `triggerEmergency` call appends a brand-new
emergency record — created with status waiting, never reusing a prior record,
all prior records surviving untouched — creates the linked chat with the
victim as sole initial participant, posts the initial system message first,
issues the helper-alert fan-out, and leaves the new emergency active with the
chat linked; all of this also happens when no location was obtained, with
zero coordinates substituted. -/
theorem triggerEmergency_spec (p : UserProfile) (loc : Option Location)
    (lang : String) (dist : Rat → Rat → Rat → Rat → Rat)
    (users : List UserDoc) (now : Int) (s : AppState) (lat0 lng0 : Rat)
    (hlat : lat0 = (loc.map Location.latitude).getD 0)
    (hlng : lng0 = (loc.map Location.longitude).getD 0)
    (hfresh : ∀ e ∈ s.emergencies, e.id ≠ s.nextId) :
    (createEmergencyRecord p lat0 lng0 lang s.nextId).status = .waiting
  ∧ (createChatRecord p.uid s.nextId (s.nextId + 1)).participants = [p.uid]
  ∧ finalEmergencyRecord p lat0 lng0 lang s.nextId (s.nextId + 1)
      ∈ (triggerEmergency (some p) loc lang dist users now s).emergencies
  ∧ finalChatRecord p.uid s.nextId (s.nextId + 1)
        (findNearbyUsersWithExpansion dist lat0 lng0 p.uid now users).1 now
      ∈ (triggerEmergency (some p) loc lang dist users now s).chats
  ∧ (∀ e ∈ s.emergencies,
        e ∈ (triggerEmergency (some p) loc lang dist users now s).emergencies)
  ∧ (triggerEmergency (some p) loc lang dist users now s).messages
      = s.messages ++ triggerMessages (s.nextId + 1) p.uid p lat0 lng0
  ∧ (triggerMessages (s.nextId + 1) p.uid p lat0 lng0).head?
      = some (initialSystemMessage (s.nextId + 1))
  ∧ (triggerEmergency (some p) loc lang dist users now s).helperAlerts
      = s.helperAlerts ++
        (if (findNearbyUsersWithExpansion dist lat0 lng0 p.uid now users).1.length > 0
         then (findNearbyUsersWithExpansion dist lat0 lng0 p.uid now users).1.map
                (helperAlertFor s.nextId (s.nextId + 1) p lat0 lng0)
         else [])
  ∧ (loc = none → lat0 = 0 ∧ lng0 = 0) := by
  subst hlat hlng
  set L : Rat := (loc.map Location.latitude).getD 0 with hL
  set G : Rat := (loc.map Location.longitude).getD 0 with hG
  set NU : List HelperWithStatus :=
    (findNearbyUsersWithExpansion dist L G p.uid now users).1 with hNU
  refine ⟨rfl, rfl, ?_, ?_, ?_, rfl, ?_, rfl, ?_⟩
  · -- the new emergency record, linked and active
    have h0 : createEmergencyRecord p L G lang s.nextId
        ∈ s.emergencies ++ [createEmergencyRecord p L G lang s.nextId] := by
      simp
    have h1 := mem_updateEmergencyDoc_of_mem h0 s.nextId
      (fun e => { e with chatId := some (s.nextId + 1) }) rfl
    have h2 := mem_updateEmergencyDoc_of_mem h1 s.nextId
      (fun e => { e with status := .active }) rfl
    exact h2
  · -- the new chat record
    have h0 : createChatRecord p.uid s.nextId (s.nextId + 1)
        ∈ s.chats ++ [createChatRecord p.uid s.nextId (s.nextId + 1)] := by
      simp
    by_cases hn : NU.length > 0
    · have h1 := mem_updateChatDoc_of_mem h0 (s.nextId + 1)
        (fun c => { c with participants := arrayUnion c.participants (p.uid :: NU.map HelperWithStatus.id) }) rfl
      have h2 := mem_updateChatDoc_of_mem h1 (s.nextId + 1)
        (fun c => { c with expiresAt := some (now + CHAT_EXPIRY_MS) }) rfl
      show _ ∈ updateChatDoc (if NU.length > 0 then _ else _) (s.nextId + 1) _
      rw [if_pos hn]
      simpa [finalChatRecord, hn] using h2
    · have h2 := mem_updateChatDoc_of_mem h0 (s.nextId + 1)
        (fun c => { c with expiresAt := some (now + CHAT_EXPIRY_MS) }) rfl
      show _ ∈ updateChatDoc (if NU.length > 0 then _ else _) (s.nextId + 1) _
      rw [if_neg hn]
      simpa [finalChatRecord, hn] using h2
  · -- prior emergency records survive untouched
    intro e he
    have hne := hfresh e he
    have h0 : e ∈ s.emergencies ++ [createEmergencyRecord p L G lang s.nextId] :=
      List.mem_append_left _ he
    have h1 := mem_updateEmergencyDoc_of_ne h0 s.nextId
      (fun d => { d with chatId := some (s.nextId + 1) }) hne
    have h2 := mem_updateEmergencyDoc_of_ne h1 s.nextId
      (fun d => { d with status := .active }) hne
    exact h2
  · -- the initial system message comes first
    simp [triggerMessages]
  · -- zero-location fallback
    intro h
    rw [hL, hG, h]
    exact ⟨rfl, rfl⟩

/-- Concrete distance function used by witnesses: the distance of a user is
their stored longitude (so a user at longitude 18 sits 18 km away). -/
def wDist : Rat → Rat → Rat → Rat → Rat := fun _ _ _ ulng => ulng

/-- Concrete user documents used by witnesses: one offline helper 18 km away,
one online user with stored latitude 0 (falsy, never discovered), plus the
requesting user themselves. -/
def wUsers : List UserDoc :=
  [{ id := "far", displayName := some "Far", email := none, phone := none,
     lat := some 1, lng := some 18, isOnlineFlag := false,
     lastActive := none, lastUpdated := none },
   { id := "zerolat", displayName := some "Zero", email := none, phone := none,
     lat := some 0, lng := some 3, isOnlineFlag := true,
     lastActive := none, lastUpdated := none },
   { id := "victim", displayName := some "Victim", email := none, phone := none,
     lat := some 1, lng := some 1, isOnlineFlag := true,
     lastActive := none, lastUpdated := none }]

/-- Concrete profile used by witnesses. -/
def wProfile : UserProfile :=
  { uid := "victim", displayName := some "Victim", email := none,
    phone := none }

/-- Witness for C5: triggering with no location from the concrete state. -/
theorem triggerEmergency_witness :
    ((0 : Rat) = (Option.map Location.latitude (none : Option Location)).getD 0
  ∧ (0 : Rat) = (Option.map Location.longitude (none : Option Location)).getD 0
  ∧ ∀ e ∈ wState.emergencies, e.id ≠ wState.nextId)
  ∧ ((createEmergencyRecord wProfile 0 0 "en" wState.nextId).status = .waiting
  ∧ (createChatRecord wProfile.uid wState.nextId (wState.nextId + 1)).participants
      = [wProfile.uid]
  ∧ finalEmergencyRecord wProfile 0 0 "en" wState.nextId (wState.nextId + 1)
      ∈ (triggerEmergency (some wProfile) none "en" wDist wUsers 0 wState).emergencies
  ∧ finalChatRecord wProfile.uid wState.nextId (wState.nextId + 1)
        (findNearbyUsersWithExpansion wDist 0 0 wProfile.uid 0 wUsers).1 0
      ∈ (triggerEmergency (some wProfile) none "en" wDist wUsers 0 wState).chats
  ∧ (∀ e ∈ wState.emergencies,
        e ∈ (triggerEmergency (some wProfile) none "en" wDist wUsers 0 wState).emergencies)
  ∧ (triggerEmergency (some wProfile) none "en" wDist wUsers 0 wState).messages
      = wState.messages ++ triggerMessages (wState.nextId + 1) wProfile.uid wProfile 0 0
  ∧ (triggerMessages (wState.nextId + 1) wProfile.uid wProfile 0 0).head?
      = some (initialSystemMessage (wState.nextId + 1))
  ∧ (triggerEmergency (some wProfile) none "en" wDist wUsers 0 wState).helperAlerts
      = wState.helperAlerts ++
        (if (findNearbyUsersWithExpansion wDist 0 0 wProfile.uid 0 wUsers).1.length > 0
         then (findNearbyUsersWithExpansion wDist 0 0 wProfile.uid 0 wUsers).1.map
                (helperAlertFor wState.nextId (wState.nextId + 1) wProfile 0 0)
         else [])
  ∧ ((none : Option Location) = none → (0 : Rat) = 0 ∧ (0 : Rat) = 0)) :=
  ⟨⟨rfl, rfl, by decide⟩,
    triggerEmergency_spec wProfile none "en" wDist wUsers 0 wState 0 0 rfl rfl
      (by decide)⟩

/-- Claim C10: one `triggerEmergency` call appends exactly the messages of
`triggerMessages`, and that batch contains a `location`-kind message exactly
when both resolved coordinates are non-zero; the emergency and chat documents
are created either way. -/
theorem trigger_locationGate (p : UserProfile) (loc : Option Location)
    (lang : String) (dist : Rat → Rat → Rat → Rat → Rat)
    (users : List UserDoc) (now : Int) (s : AppState) (lat0 lng0 : Rat)
    (hlat : lat0 = (loc.map Location.latitude).getD 0)
    (hlng : lng0 = (loc.map Location.longitude).getD 0) :
    (triggerEmergency (some p) loc lang dist users now s).messages
      = s.messages ++ triggerMessages (s.nextId + 1) p.uid p lat0 lng0
  ∧ ((∃ m ∈ triggerMessages (s.nextId + 1) p.uid p lat0 lng0,
        m.type = some MsgType.location) ↔ lat0 ≠ 0 ∧ lng0 ≠ 0)
  ∧ (∃ e ∈ (triggerEmergency (some p) loc lang dist users now s).emergencies,
        e.id = s.nextId)
  ∧ (∃ c ∈ (triggerEmergency (some p) loc lang dist users now s).chats,
        c.id = s.nextId + 1) := by
  subst hlat hlng
  set L : Rat := (loc.map Location.latitude).getD 0 with hL
  set G : Rat := (loc.map Location.longitude).getD 0 with hG
  set NU : List HelperWithStatus :=
    (findNearbyUsersWithExpansion dist L G p.uid now users).1 with hNU
  refine ⟨rfl, ?_, ?_, ?_⟩
  · constructor
    · rintro ⟨m, hm, hty⟩
      by_cases h : L ≠ 0 ∧ G ≠ 0
      · exact h
      · exfalso
        simp only [triggerMessages, if_neg h, List.append_nil,
          List.mem_singleton] at hm
        rw [hm] at hty
        simp [initialSystemMessage] at hty
    · intro h
      refine ⟨victimLocationMessage (s.nextId + 1) p.uid p L G, ?_, rfl⟩
      simp [triggerMessages, if_pos h]
  · refine ⟨finalEmergencyRecord p L G lang s.nextId (s.nextId + 1), ?_, rfl⟩
    have h0 : createEmergencyRecord p L G lang s.nextId
        ∈ s.emergencies ++ [createEmergencyRecord p L G lang s.nextId] := by
      simp
    have h1 := mem_updateEmergencyDoc_of_mem h0 s.nextId
      (fun e => { e with chatId := some (s.nextId + 1) }) rfl
    have h2 := mem_updateEmergencyDoc_of_mem h1 s.nextId
      (fun e => { e with status := .active }) rfl
    exact h2
  · refine ⟨finalChatRecord p.uid s.nextId (s.nextId + 1) NU now, ?_, ?_⟩
    · have h0 : createChatRecord p.uid s.nextId (s.nextId + 1)
          ∈ s.chats ++ [createChatRecord p.uid s.nextId (s.nextId + 1)] := by
        simp
      by_cases hn : NU.length > 0
      · have h1 := mem_updateChatDoc_of_mem h0 (s.nextId + 1)
          (fun c => { c with participants := arrayUnion c.participants (p.uid :: NU.map HelperWithStatus.id) }) rfl
        have h2 := mem_updateChatDoc_of_mem h1 (s.nextId + 1)
          (fun c => { c with expiresAt := some (now + CHAT_EXPIRY_MS) }) rfl
        show _ ∈ updateChatDoc (if NU.length > 0 then _ else _) (s.nextId + 1) _
        rw [if_pos hn]
        simpa [finalChatRecord, hn] using h2
      · have h2 := mem_updateChatDoc_of_mem h0 (s.nextId + 1)
          (fun c => { c with expiresAt := some (now + CHAT_EXPIRY_MS) }) rfl
        show _ ∈ updateChatDoc (if NU.length > 0 then _ else _) (s.nextId + 1) _
        rw [if_neg hn]
        simpa [finalChatRecord, hn] using h2
    · by_cases hn : NU.length > 0 <;> simp [finalChatRecord, createChatRecord, hn]

/-- Witness for C10: triggering with no location posts no location-kind
message while the emergency and chat are still created. -/
theorem trigger_locationGate_witness :
    ((0 : Rat) = (Option.map Location.latitude (none : Option Location)).getD 0
  ∧ (0 : Rat) = (Option.map Location.longitude (none : Option Location)).getD 0)
  ∧ ((triggerEmergency (some wProfile) none "en" wDist wUsers 0 wState).messages
      = wState.messages ++ triggerMessages (wState.nextId + 1) wProfile.uid wProfile 0 0
  ∧ ((∃ m ∈ triggerMessages (wState.nextId + 1) wProfile.uid wProfile 0 0,
        m.type = some MsgType.location) ↔ (0 : Rat) ≠ 0 ∧ (0 : Rat) ≠ 0)
  ∧ (∃ e ∈ (triggerEmergency (some wProfile) none "en" wDist wUsers 0 wState).emergencies,
        e.id = wState.nextId)
  ∧ (∃ c ∈ (triggerEmergency (some wProfile) none "en" wDist wUsers 0 wState).chats,
        c.id = wState.nextId + 1)) :=
  ⟨⟨rfl, rfl⟩,
    trigger_locationGate wProfile none "en" wDist wUsers 0 wState 0 0 rfl rfl⟩

/-! ## Claims C2 and C9 — helper discovery -/

/-- The sort comparator is transitive. -/
theorem helperLE_trans : ∀ a b c : HelperWithStatus,
    helperLE a b → helperLE b c → helperLE a c := by
  intro a b c hab hbc
  simp only [helperLE] at *
  by_cases h1 : a.isOnline = b.isOnline <;> by_cases h2 : b.isOnline = c.isOnline
  · rw [if_pos h1] at hab
    rw [if_pos h2] at hbc
    rw [if_pos (h1.trans h2)]
    simp only [decide_eq_true_eq] at *
    exact le_trans hab hbc
  · rw [if_neg h2] at hbc
    rw [if_neg (fun hc => h2 (h1.symm.trans hc))]
    rw [h1]
    exact hbc
  · rw [if_neg h1] at hab
    rw [if_neg (fun hc => h1 (hc.trans h2.symm))]
    exact hab
  · rw [if_neg h1] at hab
    rw [if_neg h2] at hbc
    exact absurd (hab.trans hbc.symm) h1

/-- The sort comparator is total. -/
theorem helperLE_total : ∀ a b : HelperWithStatus,
    helperLE a b || helperLE b a := by
  intro a b
  simp only [helperLE]
  by_cases h : a.isOnline = b.isOnline
  · rw [if_pos h, if_pos h.symm]
    rcases le_total a.distance b.distance with hd | hd
    · simp [hd]
    · simp [hd]
  · rw [if_neg h, if_neg (Ne.symm h)]
    cases ha : a.isOnline <;> cases hb : b.isOnline <;> simp_all

/-- Full behaviour of the radius-expansion loop over a strictly increasing
list of radii. -/
theorem expansionGo_spec (dist : Rat → Rat → Rat → Rat → Rat) (lat lng : Rat)
    (uid : String) (now : Int) (users : List UserDoc) :
    ∀ rs : List Rat, rs.Pairwise (· < ·) →
    ((expansionGo dist lat lng uid now users rs).1 ≠ [] →
        (expansionGo dist lat lng uid now users rs).2 ∈ rs
      ∧ (expansionGo dist lat lng uid now users rs).1.Perm
          (nearbyUsersAt dist lat lng uid now users
            (expansionGo dist lat lng uid now users rs).2))
  ∧ ((expansionGo dist lat lng uid now users rs).1 = [] →
        (expansionGo dist lat lng uid now users rs).2 = MAX_SEARCH_RADIUS
      ∧ ∀ r ∈ rs, nearbyUsersAt dist lat lng uid now users r = [])
  ∧ (expansionGo dist lat lng uid now users rs).1.Pairwise
      (fun a b => helperLE a b = true)
  ∧ (∀ r ∈ rs, r < (expansionGo dist lat lng uid now users rs).2 →
      nearbyUsersAt dist lat lng uid now users r = []) := by
  intro rs
  induction rs with
  | nil =>
    intro _
    refine ⟨fun h => absurd rfl h, fun _ => ⟨rfl, by simp⟩, ?_, by simp⟩
    simp [expansionGo]
  | cons r rest ih =>
    intro hsort
    rw [List.pairwise_cons] at hsort
    obtain ⟨hlt, hsort_rest⟩ := hsort
    have ihh := ih hsort_rest
    by_cases hn : (nearbyUsersAt dist lat lng uid now users r).length > 0
    · have hgo : expansionGo dist lat lng uid now users (r :: rest)
          = ((nearbyUsersAt dist lat lng uid now users r).mergeSort helperLE, r) := by
        simp [expansionGo, hn]
      rw [hgo]
      refine ⟨?_, ?_, ?_, ?_⟩
      · intro _
        exact ⟨List.mem_cons_self r rest, List.mergeSort_perm _ _⟩
      · intro hemp
        exfalso
        have hlen := congrArg List.length hemp
        simp only [List.length_mergeSort, List.length_nil] at hlen
        omega
      · exact List.sorted_mergeSort helperLE_trans helperLE_total _
      · intro r2 hr2 hlt2
        rcases List.mem_cons.mp hr2 with h2 | h2
        · exact absurd (h2 ▸ hlt2) (lt_irrefl r)
        · exact absurd hlt2 (not_lt_of_gt (hlt r2 h2))
    · have hemp : nearbyUsersAt dist lat lng uid now users r = [] :=
        List.length_eq_zero.mp (by omega)
      have hgo : expansionGo dist lat lng uid now users (r :: rest)
          = expansionGo dist lat lng uid now users rest := by
        simp [expansionGo, hn]
      rw [hgo]
      refine ⟨?_, ?_, ihh.2.2.1, ?_⟩
      · intro h
        obtain ⟨hmem, hperm⟩ := ihh.1 h
        exact ⟨List.mem_cons_of_mem r hmem, hperm⟩
      · intro h
        obtain ⟨hmax, hall⟩ := ihh.2.1 h
        refine ⟨hmax, ?_⟩
        intro r2 hr2
        rcases List.mem_cons.mp hr2 with h2 | h2
        · rw [h2]; exact hemp
        · exact hall r2 h2
      · intro r2 hr2 hlt2
        rcases List.mem_cons.mp hr2 with h2 | h2
        · rw [h2]; exact hemp
        · exact ihh.2.2.2 r2 h2 hlt2

/-- Claim C2: helper discovery returns, as a pair, the candidate set of the
smallest radius of the 5-km progression containing at least one candidate —
sorted online-first, then by ascending distance — together with that radius;
every strictly smaller radius of the progression has no candidate; whenever
any radius of the progression has a candidate the returned set is non-empty
(the first non-empty result is returned, never an early empty stop); and when
no radius up to the 50-km ceiling has a candidate, it returns the empty set
at the ceiling radius. -/
theorem findNearby_spec (dist : Rat → Rat → Rat → Rat → Rat) (lat lng : Rat)
    (uid : String) (now : Int) (users : List UserDoc) :
    ((findNearbyUsersWithExpansion dist lat lng uid now users).1.Perm
        (nearbyUsersAt dist lat lng uid now users
          (findNearbyUsersWithExpansion dist lat lng uid now users).2))
  ∧ (findNearbyUsersWithExpansion dist lat lng uid now users).1.Pairwise
      (fun a b => helperLE a b = true)
  ∧ (findNearbyUsersWithExpansion dist lat lng uid now users).2 ∈ searchRadii
  ∧ (∀ r ∈ searchRadii,
        r < (findNearbyUsersWithExpansion dist lat lng uid now users).2 →
        nearbyUsersAt dist lat lng uid now users r = [])
  ∧ ((∀ r ∈ searchRadii, nearbyUsersAt dist lat lng uid now users r = []) →
        findNearbyUsersWithExpansion dist lat lng uid now users
          = ([], MAX_SEARCH_RADIUS))
  ∧ ((∃ r ∈ searchRadii, nearbyUsersAt dist lat lng uid now users r ≠ []) →
        (findNearbyUsersWithExpansion dist lat lng uid now users).1 ≠ []) := by
  have hs : searchRadii.Pairwise (· < ·) := by decide
  have H := expansionGo_spec dist lat lng uid now users searchRadii hs
  unfold findNearbyUsersWithExpansion
  by_cases hres : (expansionGo dist lat lng uid now users searchRadii).1 = []
  · obtain ⟨hmax, hall⟩ := H.2.1 hres
    have h50 : MAX_SEARCH_RADIUS ∈ searchRadii := by decide
    refine ⟨?_, H.2.2.1, ?_, H.2.2.2, ?_, ?_⟩
    · rw [hres, hmax, hall MAX_SEARCH_RADIUS h50]
    · rw [hmax]; exact h50
    · intro _
      rw [Prod.ext_iff]
      exact ⟨hres, hmax⟩
    · rintro ⟨r, hr, hne⟩
      exact absurd (hall r hr) hne
  · obtain ⟨hmem, hperm⟩ := H.1 hres
    refine ⟨hperm, H.2.2.1, hmem, H.2.2.2, ?_, fun _ => hres⟩
    intro hall
    exact absurd (List.Perm.eq_nil ((hall _ hmem) ▸ hperm)) hres

/-- Witness for C2: with candidates only at 18 km, discovery stops at the
20-km step, the strictly smaller 15-km step is empty, and the result is
non-empty because the 20-km step has a candidate. -/
theorem findNearby_witness :
    ((15 : Rat) ∈ searchRadii
  ∧ (15 : Rat) < (findNearbyUsersWithExpansion wDist 0 0 "victim" 0 wUsers).2
  ∧ (20 : Rat) ∈ searchRadii
  ∧ nearbyUsersAt wDist 0 0 "victim" 0 wUsers 20 ≠ [])
  ∧ (nearbyUsersAt wDist 0 0 "victim" 0 wUsers 15 = []
  ∧ (findNearbyUsersWithExpansion wDist 0 0 "victim" 0 wUsers).1 ≠ []) :=
  ⟨⟨by decide, by decide, by decide, by decide⟩,
    (findNearby_spec wDist 0 0 "victim" 0 wUsers).2.2.2.1 15 (by decide)
      (by decide),
    (findNearby_spec wDist 0 0 "victim" 0 wUsers).2.2.2.2.2
      ⟨20, by decide, by decide⟩⟩

/-- Everything a produced candidate tells about its source user document. -/
theorem candidateAt_eq_some {dist : Rat → Rat → Rat → Rat → Rat}
    {lat lng : Rat} {uid : String} {now : Int} {radius : Rat} {u : UserDoc}
    {h : HelperWithStatus}
    (hc : candidateAt dist lat lng uid now radius u = some h) :
    h.id = u.id ∧ u.id ≠ uid ∧ u.lat = some h.lat ∧ u.lng = some h.lng
      ∧ h.lat ≠ 0 ∧ h.lng ≠ 0 := by
  unfold candidateAt at hc
  by_cases h1 : u.id = uid
  · rw [if_pos h1] at hc
    exact absurd hc (by simp)
  · rw [if_neg h1] at hc
    rcases hul : u.lat with _ | ulat <;> rcases hug : u.lng with _ | ulng <;>
      rw [hul, hug] at hc
    · exact absurd hc (by simp)
    · exact absurd hc (by simp)
    · exact absurd hc (by simp)
    · have hc2 : (if ulat = 0 ∨ ulng = 0 then (none : Option HelperWithStatus)
          else if dist lat lng ulat ulng ≤ radius then
            some { id := u.id, name := helperDisplayName u,
                   email := jsStrOrNull u.email, phone := jsStrOrNull u.phone,
                   lat := ulat, lng := ulng,
                   distance := dist lat lng ulat ulng,
                   isOnline := isOnlineAt now u, lastActive := lastSeen u }
          else none) = some h := hc
      by_cases h2 : ulat = 0 ∨ ulng = 0
      · rw [if_pos h2] at hc2
        exact absurd hc2 (by simp)
      · rw [if_neg h2] at hc2
        by_cases h3 : dist lat lng ulat ulng ≤ radius
        · rw [if_pos h3] at hc2
          push_neg at h2
          injection hc2 with hc2
          subst hc2
          exact ⟨rfl, h1, rfl, rfl, h2.1, h2.2⟩
        · rw [if_neg h3] at hc2
          exact absurd hc2 (by simp)

/-- A user document that is the requesting user, or whose stored latitude or
longitude is missing or exactly 0, never produces a candidate, at any
radius. -/
theorem candidateAt_none_of_bad {dist : Rat → Rat → Rat → Rat → Rat}
    {lat lng : Rat} {uid : String} {now : Int} {radius : Rat} {u : UserDoc}
    (hbad : u.id = uid ∨ u.lat = none ∨ u.lat = some 0 ∨ u.lng = none
      ∨ u.lng = some 0) :
    candidateAt dist lat lng uid now radius u = none := by
  unfold candidateAt
  by_cases h1 : u.id = uid
  · rw [if_pos h1]
  · rw [if_neg h1]
    rcases hbad with hbad | hbad | hbad | hbad | hbad
    · exact absurd hbad h1
    · rw [hbad]
    · rw [hbad]
      rcases u.lng with _ | ulng <;> simp
    · rw [hbad]
      rcases u.lat with _ | ulat <;> simp
    · rw [hbad]
      rcases u.lat with _ | ulat <;> simp

/-- Any helper in the discovery result came from some radius's candidate
list. -/
theorem mem_expansionGo (dist : Rat → Rat → Rat → Rat → Rat) (lat lng : Rat)
    (uid : String) (now : Int) (users : List UserDoc) :
    ∀ (rs : List Rat) (h : HelperWithStatus),
      h ∈ (expansionGo dist lat lng uid now users rs).1 →
      ∃ r, h ∈ nearbyUsersAt dist lat lng uid now users r := by
  intro rs
  induction rs with
  | nil =>
    intro h hh
    simp [expansionGo] at hh
  | cons r rest ih =>
    intro h hh
    by_cases hn : (nearbyUsersAt dist lat lng uid now users r).length > 0
    · have hgo : expansionGo dist lat lng uid now users (r :: rest)
          = ((nearbyUsersAt dist lat lng uid now users r).mergeSort helperLE, r) := by
        simp [expansionGo, hn]
      rw [hgo] at hh
      exact ⟨r, by simpa using hh⟩
    · have hgo : expansionGo dist lat lng uid now users (r :: rest)
          = expansionGo dist lat lng uid now users rest := by
        simp [expansionGo, hn]
      rw [hgo] at hh
      exact ih h hh

/-- Claim C9: every discovered candidate carries a non-zero stored latitude
and longitude taken from some scanned user document whose id differs from the
requesting user's; and a user document that is the requesting user, or whose
stored latitude or longitude is missing or exactly 0, is never discovered at
any radius. -/
theorem discovery_filters (dist : Rat → Rat → Rat → Rat → Rat) (lat lng : Rat)
    (uid : String) (now : Int) (users : List UserDoc) :
    (∀ h ∈ (findNearbyUsersWithExpansion dist lat lng uid now users).1,
        h.id ≠ uid ∧ h.lat ≠ 0 ∧ h.lng ≠ 0
      ∧ ∃ u ∈ users, u.id = h.id ∧ u.lat = some h.lat ∧ u.lng = some h.lng)
  ∧ (∀ u ∈ users,
        (u.id = uid ∨ u.lat = none ∨ u.lat = some 0 ∨ u.lng = none
          ∨ u.lng = some 0) →
        ∀ radius, candidateAt dist lat lng uid now radius u = none) := by
  constructor
  · intro h hh
    obtain ⟨r, hr⟩ := mem_expansionGo dist lat lng uid now users searchRadii h hh
    rw [nearbyUsersAt] at hr
    obtain ⟨u, hu, hc⟩ := List.mem_filterMap.mp hr
    obtain ⟨hid, hne, hulat, hulng, hl0, hg0⟩ := candidateAt_eq_some hc
    exact ⟨hid ▸ hne, hl0, hg0, u, hu, hid.symm, hulat, hulng⟩
  · intro u _ hbad radius
    exact candidateAt_none_of_bad hbad

/-- The concrete candidate that discovery finds in `wUsers`. -/
def wFarHelper : HelperWithStatus :=
  { id := "far", name := "Far", email := none, phone := none, lat := 1,
    lng := 18, distance := 18, isOnline := false, lastActive := none }

/-- Witness for C9: the one candidate discovered in the concrete user set has
non-zero stored coordinates and is not the requesting user. -/
theorem discovery_filters_witness :
    wFarHelper ∈ (findNearbyUsersWithExpansion wDist 0 0 "victim" 0 wUsers).1
  ∧ (wFarHelper.id ≠ "victim" ∧ wFarHelper.lat ≠ 0 ∧ wFarHelper.lng ≠ 0
      ∧ ∃ u ∈ wUsers, u.id = wFarHelper.id ∧ u.lat = some wFarHelper.lat
          ∧ u.lng = some wFarHelper.lng) := by
  have h5 : nearbyUsersAt wDist 0 0 "victim" 0 wUsers 5 = [] := by decide
  have h10 : nearbyUsersAt wDist 0 0 "victim" 0 wUsers 10 = [] := by decide
  have h15 : nearbyUsersAt wDist 0 0 "victim" 0 wUsers 15 = [] := by decide
  have h20 : nearbyUsersAt wDist 0 0 "victim" 0 wUsers 20 = [wFarHelper] := by
    decide
  have hfind : findNearbyUsersWithExpansion wDist 0 0 "victim" 0 wUsers
      = ((nearbyUsersAt wDist 0 0 "victim" 0 wUsers 20).mergeSort helperLE, 20) := by
    show expansionGo wDist 0 0 "victim" 0 wUsers searchRadii = _
    simp [searchRadii, expansionGo, h5, h10, h15, h20]
  have hmem : wFarHelper ∈ (findNearbyUsersWithExpansion wDist 0 0 "victim" 0 wUsers).1 := by
    rw [hfind]
    simp [h20]
  exact ⟨hmem,
    (discovery_filters wDist 0 0 "victim" 0 wUsers).1 wFarHelper hmem⟩
